import Mathlib

/-!
Shallow embedding of the socket.io server core (src/lib/socket.ts,
src/lib/namespace.ts, src/lib/parent-namespace.ts, src/lib/client.ts,
src/lib/index.ts) and proofs about its claims.

Stateful TypeScript methods are embedded as pure functions that return the
updated state together with an ordered trace of externally observable
actions (an `Effect` list); a method that can `throw` returns
`Except String`.
-/

set_option maxRecDepth 4096

/-- Packet types, from the socket.io-parser `PacketType` enum used by the source. -/
inductive PacketType where
  | CONNECT
  | DISCONNECT
  | EVENT
  | ACK
  | ERROR
  | BINARY_EVENT
  | BINARY_ACK
deriving DecidableEq, Repr

/-- Values passed as emit arguments / packet payload entries: strings, binary
payloads, and function values (ack callbacks, tagged by a number so that
distinct callbacks can be told apart). -/
inductive Arg where
  | str : String → Arg
  | num : Nat → Arg
  | bin : Arg
  | fn : Nat → Arg
deriving DecidableEq, Repr

/-- Whether an argument is a function value (the source's `typeof x === "function"`). -/
def Arg.isFn : Arg → Bool
  | .fn _ => true
  | _ => false

/-- Whether an argument is a binary payload. -/
def Arg.isBin : Arg → Bool
  | .bin => true
  | _ => false

/-- Embedding of the `has-binary2` structural scan used by both emit methods. -/
def hasBin (args : List Arg) : Bool :=
  args.any Arg.isBin

/-- Whether the last element of the argument list is a function
(the source's `typeof args[args.length - 1] === "function"`). -/
def lastIsFn (args : List Arg) : Bool :=
  match args.getLast? with
  | some a => a.isFn
  | none => false

/-- Tag of the function value sitting in an optional argument slot. -/
def fnTag : Option Arg → Nat
  | some (Arg.fn k) => k
  | _ => 0

/-- Payload of a packet: absent, a bare string (ERROR packets), or the argument
array of an EVENT/ACK packet. -/
inductive PacketData where
  | none
  | str : String → PacketData
  | args : List Arg → PacketData
deriving DecidableEq, Repr

/-- Packet record `{type, nsp?, id?, data?}` as produced by the source. -/
structure Packet where
  type : PacketType
  nsp : Option String := Option.none
  id : Option Nat := Option.none
  data : PacketData := PacketData.none
deriving DecidableEq, Repr

/-- Broadcast modifier flags (socket.io-adapter `BroadcastFlags`); all are unset
by default, matching the source's `flags = {}`. The source's `local` field is
spelled `localFlag` because `local` is a Lean keyword. -/
structure BroadcastFlags where
  broadcast : Bool := false
  binary : Option Bool := Option.none
  compress : Option Bool := Option.none
  volatile : Bool := false
  localFlag : Bool := false
deriving DecidableEq, Repr

/-- Reserved ("blacklisted") event names of Socket (src/lib/socket.ts lines 16-23). -/
def socketEvents : List String :=
  ["error", "connect", "disconnect", "disconnecting", "newListener", "removeListener"]

/-- Reserved ("blacklisted") event names of Namespace (src/lib/namespace.ts lines 16-20). -/
def nspEvents : List String :=
  ["connect", "connection", "newListener"]

/-- Observable actions a method performs, in program order: local EventEmitter
emissions, adapter calls (tagged with the owning namespace's name), packets
handed to the Client, removals from namespace/client registries, and the
lifecycle flag writes of `onclose`. -/
inductive Effect where
  | localEmit (ev : String) (args : List Arg)
  | adapterBroadcast (nsp : String) (packet : Packet) (rooms : List String)
      (except : List String) (flags : BroadcastFlags)
  | adapterAddAll (sid : String) (rooms : List String)
  | adapterDelAll (sid : String)
  | clientPacket (packet : Packet) (flags : BroadcastFlags)
  | nspConnectedAdd (sid : String)
  | nspConnectedDelete (sid : String)
  | nspRemove (sid : String)
  | clientRemove (sid : String)
  | setConnected (b : Bool)
  | setDisconnected (b : Bool)
  | clientDisconnect
deriving DecidableEq, Repr

/-- State of one Socket together with the pieces of its Namespace that its
methods read and write: `nspFns` is the number of connect middleware on the
namespace, `nspIds` the namespace's packet id counter `nsp.ids`, and
`nspConnected` the keys of `nsp.connected`. `acks` holds (packet id, callback
tag) pairs, the keys of the source's `acks` map. -/
structure SocketState where
  id : String
  nspName : String
  nspFns : Nat
  handshake : String
  connected : Bool
  disconnected : Bool
  acks : List (Nat × Nat)
  _rooms : List String
  flags : BroadcastFlags
  nspIds : Nat
  nspConnected : List String
deriving DecidableEq, Repr

/-- Shallow embedding of `Socket.packet` (src/lib/socket.ts lines 240-244):
stamps the namespace name on the packet and normalizes the compress option
(`opts.compress = false !== opts.compress`) before handing it to the Client. -/
def Socket.packet (s : SocketState) (p : Packet) (flags : BroadcastFlags) : Effect :=
  Effect.clientPacket { p with nsp := some s.nspName }
    { flags with compress := some (decide (flags.compress ≠ some false)) }

/-- Shallow embedding of `Socket.emit` (src/lib/socket.ts lines 139-186).

Reserved names go to the local listener registry. Otherwise the packet type is
chosen by the explicit `binary` flag, else by a structural binary scan. A
trailing function argument throws when a room is staged or the `broadcast`
flag is set, and otherwise is stored in `acks` under the namespace counter,
whose value is attached to the packet as `id` (and the counter incremented);
in that case rooms are empty and broadcast is off, so the source's final
branch sends the packet directly. Without a trailing function the staged
rooms and flags are snapshotted and reset, and the packet goes to
`adapter.broadcast` with `except = {this.id}` when rooms are staged or
`broadcast` is set, else directly through the owning Client. -/
def Socket.emit (s : SocketState) (ev : String) (rest : List Arg) :
    Except String (SocketState × List Effect) :=
  if socketEvents.contains ev then
    Except.ok (s, [Effect.localEmit ev rest])
  else
    let args := Arg.str ev :: rest
    let isBinary := match s.flags.binary with
      | some b => b
      | none => hasBin args
    let ptype := if isBinary then PacketType.BINARY_EVENT else PacketType.EVENT
    if lastIsFn args then
      if !s._rooms.isEmpty || s.flags.broadcast then
        Except.error "Callbacks are not supported when broadcasting"
      else
        let packet : Packet :=
          { type := ptype, id := some s.nspIds, data := PacketData.args args.dropLast }
        let s2 : SocketState :=
          { s with acks := (s.nspIds, fnTag args.getLast?) :: s.acks,
                   nspIds := s.nspIds + 1, _rooms := [], flags := {} }
        Except.ok (s2, [Socket.packet s packet s.flags])
    else
      let packet : Packet := { type := ptype, data := PacketData.args args }
      let s2 : SocketState := { s with _rooms := [], flags := {} }
      if !s._rooms.isEmpty || s.flags.broadcast then
        Except.ok (s2, [Effect.adapterBroadcast s.nspName packet s._rooms [s.id] s.flags])
      else
        Except.ok (s2, [Socket.packet s packet s.flags])

/-- State of the Socket object after an `emit` call returns or throws. In the
source the throw happens before any field of the socket is mutated, so on a
throw the object keeps its prior state. -/
def Socket.emitFinalState (s : SocketState) (ev : String) (rest : List Arg) : SocketState :=
  match Socket.emit s ev rest with
  | Except.ok (s', _) => s'
  | Except.error _ => s

/-- Effect trace of an `emit` call (empty when the call throws: the throw in
the source happens before any packet or adapter call). -/
def emitEffects (s : SocketState) (ev : String) (rest : List Arg) : List Effect :=
  match Socket.emit s ev rest with
  | Except.ok (_, effs) => effs
  | Except.error _ => []

example :
    Socket.emit
      { id := "a", nspName := "/", nspFns := 0, handshake := "h", connected := true,
        disconnected := false, acks := [], _rooms := ["r1"], flags := {}, nspIds := 0,
        nspConnected := ["a"] } "x" [Arg.num 1] =
    Except.ok
      ({ id := "a", nspName := "/", nspFns := 0, handshake := "h", connected := true,
         disconnected := false, acks := [], _rooms := [], flags := {}, nspIds := 0,
         nspConnected := ["a"] },
       [Effect.adapterBroadcast "/"
          { type := PacketType.EVENT, data := PacketData.args [Arg.str "x", Arg.num 1] }
          ["r1"] ["a"] {}]) := rfl

example :
    Socket.emit
      { id := "a", nspName := "/", nspFns := 0, handshake := "h", connected := true,
        disconnected := false, acks := [], _rooms := [], flags := {}, nspIds := 3,
        nspConnected := ["a"] } "x" [Arg.fn 7] =
    Except.ok
      ({ id := "a", nspName := "/", nspFns := 0, handshake := "h", connected := true,
         disconnected := false, acks := [(3, 7)], _rooms := [], flags := {}, nspIds := 4,
         nspConnected := ["a"] },
       [Effect.clientPacket
          { type := PacketType.EVENT, nsp := some "/", id := some 3,
            data := PacketData.args [Arg.str "x"] }
          { compress := some true }]) := rfl

example :
    Socket.emit
      { id := "a", nspName := "/", nspFns := 0, handshake := "h", connected := true,
        disconnected := false, acks := [], _rooms := ["r1"], flags := {}, nspIds := 3,
        nspConnected := ["a"] } "x" [Arg.fn 7] =
    Except.error "Callbacks are not supported when broadcasting" := rfl

example :
    Socket.emit
      { id := "a", nspName := "/", nspFns := 0, handshake := "h", connected := true,
        disconnected := false, acks := [], _rooms := ["r1"], flags := {}, nspIds := 3,
        nspConnected := ["a"] } "disconnect" [Arg.num 1] =
    Except.ok
      ({ id := "a", nspName := "/", nspFns := 0, handshake := "h", connected := true,
         disconnected := false, acks := [], _rooms := ["r1"], flags := {}, nspIds := 3,
         nspConnected := ["a"] },
       [Effect.localEmit "disconnect" [Arg.num 1]]) := rfl

/-- Shallow embedding of `Socket.onclose` (src/lib/socket.ts lines 436-447).
A no-op when `connected` is already false; otherwise it emits `disconnecting`,
leaves every room, removes the socket from its Namespace and its Client, flips
the lifecycle flags, deletes the socket from `nsp.connected` and finally emits
`disconnect`. The effect trace lists these actions in the source's line
order. -/
def Socket.onclose (s : SocketState) (reason : String) : SocketState × List Effect :=
  if !s.connected then (s, [])
  else
    ({ s with connected := false, disconnected := true,
              nspConnected := s.nspConnected.erase s.id },
     [Effect.localEmit "disconnecting" [Arg.str reason],
      Effect.adapterDelAll s.id,
      Effect.nspRemove s.id,
      Effect.clientRemove s.id,
      Effect.setConnected false,
      Effect.setDisconnected true,
      Effect.nspConnectedDelete s.id,
      Effect.localEmit "disconnect" [Arg.str reason]])

/-- Set-style insertion into a list of map keys: a no-op when the key is
already present (JavaScript `Map.prototype.set` keeps keys unique). -/
def mapSet (l : List String) (k : String) : List String :=
  if l.contains k then l else l ++ [k]

/-- Shallow embedding of `Socket.onconnect` (src/lib/socket.ts lines 299-311):
register in `nsp.connected`, join the room named by the socket's own id
(`join` delegates to `adapter.addAll`), then write a CONNECT packet unless
this is the default namespace with zero connect middleware, in which case the
CONNECT was already merged into the transport handshake. -/
def Socket.onconnect (s : SocketState) : SocketState × List Effect :=
  let skip := s.nspName == "/" && s.nspFns == 0
  ({ s with nspConnected := mapSet s.nspConnected s.id },
   [Effect.nspConnectedAdd s.id, Effect.adapterAddAll s.id [s.id]] ++
     (if skip then [] else [Socket.packet s { type := PacketType.CONNECT } {}]))

/-- Shallow embedding of the initial-packet decision in `Server.attach`
(src/lib/index.ts lines 394-408): when the default namespace has connect
middleware the engine is initialized without an initial packet; otherwise a
CONNECT packet for `"/"` is pre-encoded and handed to the transport so it is
merged with the transport handshake. -/
def Server.attachInitialPacket (defaultNspFns : Nat) : Option Packet :=
  if defaultNspFns > 0 then none
  else some { type := PacketType.CONNECT, nsp := some "/" }

/-- Shallow embedding of `Socket.disconnect` (src/lib/socket.ts lines 466-476):
nothing happens when already disconnected; with `close = true` the whole
Client (and its transport) is torn down; otherwise a DISCONNECT packet is
written and `onclose` runs, leaving the underlying transport open. -/
def Socket.disconnect (s : SocketState) (close : Bool) : SocketState × List Effect :=
  if !s.connected then (s, [])
  else if close then (s, [Effect.clientDisconnect])
  else
    let r := Socket.onclose s "server namespace disconnect"
    (r.1, Socket.packet s { type := PacketType.DISCONNECT } {} :: r.2)

/-- Shallow embedding of `Client.packet` (src/lib/client.ts lines 537-561):
the packet is written to the transport (one encoded frame, modelled as the
packet itself) only when the connection's readyState is open, and a volatile
packet is additionally dropped when the transport is not writable. -/
def Client.packetWrites (connOpen : Bool) (writable : Bool) (p : Packet)
    (flags : BroadcastFlags) : List Packet :=
  if connOpen then
    if flags.volatile && !writable then [] else [p]
  else []

/-- Frames that actually reach the transport from the `clientPacket` effects of
a trace (every packet a method hands directly to its owning Client), given the
connection's readyState and the transport's writability. -/
def transportWrites (connOpen : Bool) (writable : Bool) : List Effect → List Packet
  | [] => []
  | Effect.clientPacket p f :: rest =>
      Client.packetWrites connOpen writable p f ++ transportWrites connOpen writable rest
  | _ :: rest => transportWrites connOpen writable rest

/-- Shallow embedding of `Namespace.emit` (src/lib/namespace.ts lines 193-227).

The namespace's staged rooms live in a mutable `Set` object; `rooms` is that
object's content on entry, and the first component of a successful result is
its content when the call returns (the source empties it in place via
`this.rooms.clear()`, which is visible through every alias of the object).
The second component is the namespace's `flags` field after the call
(`this.flags = {}` rebinds the field and does not mutate the old object).
Reserved names go to the local listener registry and touch neither. A trailing
function argument throws. Otherwise the packet is broadcast through the
namespace's own adapter with the snapshotted rooms and flags and no `except`
set. -/
def Namespace.emit (name : String) (rooms : List String) (flags : BroadcastFlags)
    (ev : String) (rest : List Arg) :
    Except String (List String × BroadcastFlags × List Effect) :=
  if nspEvents.contains ev then
    Except.ok (rooms, flags, [Effect.localEmit ev rest])
  else
    let args := Arg.str ev :: rest
    let isBinary := match flags.binary with
      | some b => b
      | none => hasBin args
    let ptype := if isBinary then PacketType.BINARY_EVENT else PacketType.EVENT
    if lastIsFn args then
      Except.error "Callbacks are not supported when broadcasting"
    else
      let packet : Packet := { type := ptype, data := PacketData.args args }
      Except.ok ([], {}, [Effect.adapterBroadcast name packet rooms [] flags])

/-- State of a ParentNamespace: its staged rooms (the content of its shared
`Set` object), its flags and the names of its children in insertion order. -/
structure ParentNs where
  rooms : List String
  flags : BroadcastFlags
  children : List String
deriving DecidableEq, Repr

/-- Shallow embedding of `ParentNamespace.emit` (src/lib/parent-namespace.ts
lines 330-340). For each child the source assigns `nsp.rooms = this.rooms` —
the very Set object, not a copy — and `nsp.flags = this.flags`, then calls the
child's `Namespace.emit`. The child snapshots the set's content and then
clears the shared object, so the threaded `sharedRooms` value carries what
each successive child actually sees; the parent's flags object is never
mutated (children only rebind their own `flags` field), so every child
receives `p.flags`. After the loop the parent clears its rooms and flags. -/
def ParentNamespace.emit (p : ParentNs) (ev : String) (rest : List Arg) :
    Except String (ParentNs × List Effect) :=
  let step := fun (acc : Except String (List String × List Effect)) (child : String) =>
    match acc with
    | Except.error e => Except.error e
    | Except.ok (sharedRooms, effs) =>
      match Namespace.emit child sharedRooms p.flags ev rest with
      | Except.error e => Except.error e
      | Except.ok (roomsAfter, _, ceffs) => Except.ok (roomsAfter, effs ++ ceffs)
  match p.children.foldl step (Except.ok (p.rooms, [])) with
  | Except.error e => Except.error e
  | Except.ok (_, effs) => Except.ok ({ p with rooms := [], flags := {} }, effs)

/-- Result of one parent-namespace matcher invocation: the source's matcher
callback is called as `fn(err, allow)`; the match is accepted only when there
is no error and `allow` is true. -/
structure MatcherResult where
  err : Bool
  allow : Bool
deriving DecidableEq, Repr

/-- Whether a matcher accepts a namespace name (`err || !allow` means try the
next matcher in `Server.checkNamespace`). -/
def matcherAccepts (m : String → MatcherResult) (name : String) : Bool :=
  !(m name).err && (m name).allow

/-- Shallow embedding of `Server.checkNamespace` (src/lib/index.ts lines
275-301): with no registered parent matcher the callback gets `false`;
otherwise the matchers are tried in insertion order and on the first
acceptance `createChild(name)` is invoked (modelled by returning the created
child namespace's name); on exhaustion the callback gets `false` (`none`). -/
def Server.checkNamespace (matchers : List (String → MatcherResult)) (name : String) :
    Option String :=
  match matchers with
  | [] => none
  | m :: rest =>
    if (m name).err || !(m name).allow then Server.checkNamespace rest name
    else some name

/-- Outcome of `Client.connect` for one CONNECT packet: whether `doConnect`
was reached (the only code path that creates a Socket for the namespace),
which dynamic child namespace was created, and the packets the Client wrote
directly. -/
structure ConnectResult where
  proceeded : Bool
  childCreated : Option String
  packets : List Packet
deriving DecidableEq, Repr

/-- Shallow embedding of `Client.connect` (src/lib/client.ts lines 438-458):
a statically known namespace goes straight to `doConnect`; otherwise
`Server.checkNamespace` runs, and on acceptance the connect proceeds with the
freshly created child, while on rejection the Client writes exactly one ERROR
packet `{nsp: name, data: "Invalid namespace"}` and no Socket is created. -/
def Client.connect (staticNsps : List String) (matchers : List (String → MatcherResult))
    (name : String) : ConnectResult :=
  if staticNsps.contains name then
    { proceeded := true, childCreated := none, packets := [] }
  else
    match Server.checkNamespace matchers name with
    | some child => { proceeded := true, childCreated := some child, packets := [] }
    | none =>
      { proceeded := false, childCreated := none,
        packets := [{ type := PacketType.ERROR, nsp := some name,
                      data := PacketData.str "Invalid namespace" }] }

/-- Client-side connection state for the CONNECT ordering rule: `nsps` holds
the names of namespaces for which this Client has an established Socket (the
keys of the source's `nsps` map), `connectBuffer` the namespace names whose
CONNECT arrived before the default-namespace Socket existed. -/
structure ClientState where
  nsps : List String
  connectBuffer : List String
deriving DecidableEq, Repr

/-- One `Client.doConnect` step without the replay logic (src/lib/client.ts
lines 467-480): a CONNECT for a non-default namespace while the default
Socket is not yet established is pushed onto `connectBuffer` and creates
nothing; otherwise the namespace adds the socket and, on approval, the Client
registers it in `nsps`. Approval is modelled synchronously, which matches a
namespace without connect middleware. The second component lists the
namespaces a Socket was created for (empty or a singleton). -/
def Client.doConnectFlat (st : ClientState) (name : String) : ClientState × List String :=
  if name != "/" && !(st.nsps.contains "/") then
    ({ st with connectBuffer := st.connectBuffer ++ [name] }, [])
  else
    ({ st with nsps := mapSet st.nsps name }, [name])

/-- Shallow embedding of `Client.doConnect` including the replay of the
connect buffer (src/lib/client.ts lines 467-487): after the approval callback
registers the socket, if the just-approved namespace is the default one and
the buffer is non-empty, the buffered names are replayed through `connect` in
arrival order (each replayed name is assumed to denote a statically existing
namespace, so `connect` reduces to `doConnect`, and since `"/"` is now
registered each replay takes the non-buffering branch) and the buffer is then
cleared. -/
def Client.doConnect (st : ClientState) (name : String) : ClientState × List String :=
  match Client.doConnectFlat st name with
  | (st1, created) =>
    if name == "/" && !st1.connectBuffer.isEmpty then
      let run := st1.connectBuffer.foldl
        (fun (acc : ClientState × List String) b =>
          ((Client.doConnectFlat acc.1 b).1, acc.2 ++ (Client.doConnectFlat acc.1 b).2))
        (st1, created)
      ({ run.1 with connectBuffer := [] }, run.2)
    else (st1, created)

/-- Membership state of one Adapter: `rooms` maps each room to the sids it
contains, `sids` lists every sid known to the adapter. -/
structure AdapterState where
  rooms : List (String × List String)
  sids : List String
deriving DecidableEq, Repr

/-- Modelled from the spec: the Adapter lives in the external socket.io-adapter
package, not under src/; section 4.1 of the spec defines its `broadcast`
targeting rule — with no rooms every sid known to the adapter is targeted,
otherwise the union of the given rooms' members with each sid counted once,
and any sid in `except` is then removed. This function returns the resulting
recipient set. -/
def Adapter.broadcastRecipients (a : AdapterState) (rooms : List String)
    (exceptSids : List String) : List String :=
  let targets :=
    if rooms.isEmpty then a.sids
    else (rooms.foldl
      (fun acc r =>
        acc ++ ((a.rooms.filter (fun pr => pr.1 == r)).foldl (fun ac pr => ac ++ pr.2) []))
      []).eraseDups
  targets.filter (fun sid => !exceptSids.contains sid)

example :
    Adapter.broadcastRecipients
      { rooms := [("r1", ["a", "b", "c"])], sids := ["a", "b", "c", "d"] }
      ["r1"] ["a"] = ["b", "c"] := rfl

example :
    Adapter.broadcastRecipients
      { rooms := [("r1", ["a", "b", "c"])], sids := ["a", "b", "c", "d"] }
      [] ["a"] = ["b", "c", "d"] := rfl

/-- Helper: a sid listed in the `except` set never survives the final filter
of the modelled adapter broadcast. -/
theorem broadcastRecipients_not_mem (a : AdapterState) (rooms exceptSids : List String)
    (sid : String) (h : sid ∈ exceptSids) :
    sid ∉ Adapter.broadcastRecipients a rooms exceptSids := by
  intro hmem
  unfold Adapter.broadcastRecipients at hmem
  have hp := List.of_mem_filter hmem
  simp at hp
  exact hp h

/-- C1: an emit of a non-reserved event with a staged room or the broadcast
flag goes to the namespace adapter's broadcast with `except = {this.id}`, so
the emitter is not among the recipients; with no staged room and no broadcast
flag the packet is written directly through the owning Client. -/
theorem C1_socket_emit_routing (s : SocketState) (ev : String) (rest : List Arg)
    (hev : socketEvents.contains ev = false)
    (s' : SocketState) (effs : List Effect)
    (hok : Socket.emit s ev rest = Except.ok (s', effs)) :
    ((s._rooms ≠ [] ∨ s.flags.broadcast = true) →
      ∃ p, effs = [Effect.adapterBroadcast s.nspName p s._rooms [s.id] s.flags]) ∧
    ((s._rooms = [] ∧ s.flags.broadcast = false) →
      ∃ p f, effs = [Effect.clientPacket p f]) ∧
    (∀ (a : AdapterState) (rooms : List String),
      s.id ∉ Adapter.broadcastRecipients a rooms [s.id]) := by
  refine ⟨?_, ?_, ?_⟩
  · intro hbc
    unfold Socket.emit at hok
    rw [hev] at hok
    simp only [Bool.false_eq_true, if_false] at hok
    have hb : (!s._rooms.isEmpty || s.flags.broadcast) = true := by
      rcases hbc with h1 | h1
      · simp [List.isEmpty_iff, h1]
      · simp [h1]
    cases hfn : lastIsFn (Arg.str ev :: rest) with
    | true =>
      rw [hfn] at hok
      simp only [if_true, hb] at hok
      cases hok
    | false =>
      rw [hfn] at hok
      simp only [Bool.false_eq_true, if_false, hb, if_true] at hok
      cases hok
      exact ⟨_, rfl⟩
  · intro ⟨h1, h2⟩
    unfold Socket.emit at hok
    rw [hev] at hok
    simp only [Bool.false_eq_true, if_false] at hok
    have hb : (!s._rooms.isEmpty || s.flags.broadcast) = false := by
      simp [h1, h2]
    cases hfn : lastIsFn (Arg.str ev :: rest) with
    | true =>
      rw [hfn] at hok
      simp only [if_true, hb, Bool.false_eq_true, if_false] at hok
      cases hok
      exact ⟨_, _, rfl⟩
    | false =>
      rw [hfn] at hok
      simp only [Bool.false_eq_true, if_false, hb] at hok
      cases hok
      exact ⟨_, _, rfl⟩
  · intro a rooms
    exact broadcastRecipients_not_mem a rooms [s.id] s.id (by simp)

/-- Concrete socket used to witness C1: one staged room, default flags. -/
def sockW : SocketState :=
  { id := "a", nspName := "/", nspFns := 0, handshake := "h", connected := true,
    disconnected := false, acks := [], _rooms := ["r1"], flags := {}, nspIds := 0,
    nspConnected := ["a"] }

/-- Witness for C1: a concrete emit with one staged room goes through the
adapter with `except = {"a"}`. -/
theorem C1_witness :
    ∃ p, emitEffects sockW "x" [] =
      [Effect.adapterBroadcast sockW.nspName p sockW._rooms [sockW.id] sockW.flags] :=
  (C1_socket_emit_routing sockW "x" [] rfl (Socket.emitFinalState sockW "x" [])
    (emitEffects sockW "x" []) rfl).1 (Or.inl (by decide))

/-- Helper: a matcher list that rejects a name everywhere yields no child. -/
theorem checkNamespace_none_of_all_reject (matchers : List (String → MatcherResult))
    (name : String) (h : matchers.all (fun m => !matcherAccepts m name) = true) :
    Server.checkNamespace matchers name = none := by
  induction matchers with
  | nil => rfl
  | cons m rest ih =>
    simp only [List.all_cons, Bool.and_eq_true] at h
    have h1 : matcherAccepts m name = false := by
      have := h.1
      simp at this
      exact this
    have hcond : ((m name).err || !(m name).allow) = true := by
      unfold matcherAccepts at h1
      rcases Bool.and_eq_false_iff.mp h1 with h2 | h2
      · simp at h2
        simp [h2]
      · simp [h2]
    unfold Server.checkNamespace
    rw [hcond]
    simp only [if_true]
    exact ih h.2

/-- Helper: the first accepting matcher, after any run of rejecting ones,
creates the child. -/
theorem checkNamespace_first_accept (pre : List (String → MatcherResult))
    (m : String → MatcherResult) (post : List (String → MatcherResult)) (name : String)
    (hpre : pre.all (fun m2 => !matcherAccepts m2 name) = true)
    (hm : matcherAccepts m name = true) :
    Server.checkNamespace (pre ++ m :: post) name = some name := by
  induction pre with
  | nil =>
    unfold matcherAccepts at hm
    have h1 := Bool.and_eq_true_iff.mp hm
    have herr : (m name).err = false := by
      have := h1.1
      simp at this
      exact this
    unfold Server.checkNamespace
    simp [herr, h1.2]
  | cons m0 rest ih =>
    simp only [List.all_cons, Bool.and_eq_true] at hpre
    have h1 : matcherAccepts m0 name = false := by
      have := hpre.1
      simp at this
      exact this
    have hcond : ((m0 name).err || !(m0 name).allow) = true := by
      unfold matcherAccepts at h1
      rcases Bool.and_eq_false_iff.mp h1 with h2 | h2
      · simp at h2
        simp [h2]
      · simp [h2]
    simp only [List.cons_append]
    unfold Server.checkNamespace
    rw [hcond]
    simp only [if_true]
    exact ih hpre.2

/-- C2: a CONNECT for a namespace with no static entry tries the parent
matchers in insertion order; the first acceptance creates a child of that name
and the connect proceeds, and when every matcher rejects (in particular when
none is registered) the Client writes exactly one ERROR packet
`{nsp: name, data: "Invalid namespace"}` and no Socket is created (the
`doConnect` path is never reached). -/
theorem C2_invalid_namespace (staticNsps : List String)
    (matchers pre post : List (String → MatcherResult)) (m : String → MatcherResult)
    (name : String) (hstatic : staticNsps.contains name = false) :
    ((matchers = pre ++ m :: post ∧ pre.all (fun m2 => !matcherAccepts m2 name) = true ∧
        matcherAccepts m name = true) →
      Client.connect staticNsps matchers name =
        { proceeded := true, childCreated := some name, packets := [] }) ∧
    (matchers.all (fun m2 => !matcherAccepts m2 name) = true →
      Client.connect staticNsps matchers name =
        { proceeded := false, childCreated := none,
          packets := [{ type := PacketType.ERROR, nsp := some name,
                        data := PacketData.str "Invalid namespace" }] }) := by
  constructor
  · rintro ⟨hsplit, hpre, hm⟩
    unfold Client.connect
    rw [hstatic]
    simp only [Bool.false_eq_true, if_false, hsplit,
      checkNamespace_first_accept pre m post name hpre hm]
  · intro hall
    unfold Client.connect
    rw [hstatic]
    simp only [Bool.false_eq_true, if_false,
      checkNamespace_none_of_all_reject matchers name hall]

/-- Matcher that rejects every name. -/
def mRej : String → MatcherResult := fun _ => { err := false, allow := false }

/-- Matcher that accepts exactly the name "/dyn". -/
def mAcc : String → MatcherResult := fun n => { err := false, allow := n == "/dyn" }

/-- Witness for C2 at concrete matcher lists: with a rejecting then an
accepting matcher the child "/dyn" is created; with only the rejecting one a
single "Invalid namespace" ERROR packet is written. -/
theorem C2_witness :
    Client.connect ["/"] [mRej, mAcc] "/dyn" =
      { proceeded := true, childCreated := some "/dyn", packets := [] } ∧
    Client.connect ["/"] [mRej] "/dyn" =
      { proceeded := false, childCreated := none,
        packets := [{ type := PacketType.ERROR, nsp := some "/dyn",
                      data := PacketData.str "Invalid namespace" }] } :=
  ⟨(C2_invalid_namespace ["/"] [mRej, mAcc] [mRej] [] mAcc "/dyn" rfl).1 ⟨rfl, rfl, rfl⟩,
   (C2_invalid_namespace ["/"] [mRej] [] [] mAcc "/dyn" rfl).2 rfl⟩

/-- C3: a trailing callback while a room is staged or the broadcast flag is
set makes `Socket.emit` throw "Callbacks are not supported when broadcasting"
with no packet sent and no ack id allocated or stored (the socket state is
untouched); a trailing callback makes `Namespace.emit` of a non-reserved
event throw the same error; and a non-broadcasting `Socket.emit` takes the
next packet id from the namespace counter, stores the callback in `acks`
under that id and attaches the id to the packet. -/
theorem C3_broadcast_ack_rejected (s : SocketState) (ev : String) (rest : List Arg)
    (name : String) (rooms : List String) (flags : BroadcastFlags) :
    (socketEvents.contains ev = false → lastIsFn (Arg.str ev :: rest) = true →
      (s._rooms ≠ [] ∨ s.flags.broadcast = true) →
      Socket.emit s ev rest = Except.error "Callbacks are not supported when broadcasting" ∧
      Socket.emitFinalState s ev rest = s) ∧
    (nspEvents.contains ev = false → lastIsFn (Arg.str ev :: rest) = true →
      Namespace.emit name rooms flags ev rest =
        Except.error "Callbacks are not supported when broadcasting") ∧
    (socketEvents.contains ev = false → lastIsFn (Arg.str ev :: rest) = true →
      s._rooms = [] → s.flags.broadcast = false →
      ∃ s2 p f, Socket.emit s ev rest = Except.ok (s2, [Effect.clientPacket p f]) ∧
        s2.nspIds = s.nspIds + 1 ∧
        s2.acks = (s.nspIds, fnTag (Arg.str ev :: rest).getLast?) :: s.acks ∧
        p.id = some s.nspIds) := by
  refine ⟨?_, ?_, ?_⟩
  · intro hev hfn hbc
    have hb : (!s._rooms.isEmpty || s.flags.broadcast) = true := by
      rcases hbc with h1 | h1
      · simp [List.isEmpty_iff, h1]
      · simp [h1]
    have herr :
        Socket.emit s ev rest =
          Except.error "Callbacks are not supported when broadcasting" := by
      unfold Socket.emit
      rw [hev]
      simp only [Bool.false_eq_true, if_false]
      rw [hfn]
      simp only [if_true, hb]
    refine ⟨herr, ?_⟩
    unfold Socket.emitFinalState
    rw [herr]
  · intro hev hfn
    unfold Namespace.emit
    rw [hev]
    simp only [Bool.false_eq_true, if_false]
    rw [hfn]
    simp only [if_true]
  · intro hev hfn h1 h2
    have hb : (!s._rooms.isEmpty || s.flags.broadcast) = false := by
      simp [h1, h2]
    unfold Socket.emit
    rw [hev]
    simp only [Bool.false_eq_true, if_false]
    rw [hfn]
    simp only [if_true, hb, Bool.false_eq_true, if_false]
    exact ⟨_, _, _, rfl, rfl, rfl, rfl⟩

/-- Witness for C3 at concrete inputs: staged-room emit with a callback
throws; namespace emit with a callback throws; plain emit with a callback
allocates id 3 and stores the callback under it. -/
theorem C3_witness :
    (Socket.emit sockW "x" [Arg.fn 9] =
        Except.error "Callbacks are not supported when broadcasting" ∧
      Socket.emitFinalState sockW "x" [Arg.fn 9] = sockW) ∧
    Namespace.emit "/" [] {} "x" [Arg.fn 9] =
      Except.error "Callbacks are not supported when broadcasting" ∧
    ∃ s2 p f,
      Socket.emit { sockW with _rooms := [], nspIds := 3 } "x" [Arg.fn 9] =
        Except.ok (s2, [Effect.clientPacket p f]) ∧
      s2.nspIds = 3 + 1 ∧
      s2.acks = (3, fnTag ([Arg.str "x", Arg.fn 9]).getLast?) :: [] ∧
      p.id = some 3 :=
  ⟨(C3_broadcast_ack_rejected sockW "x" [Arg.fn 9] "/" [] {}).1 rfl rfl
     (Or.inl (by decide)),
   (C3_broadcast_ack_rejected sockW "x" [Arg.fn 9] "/" [] {}).2.1 rfl rfl,
   (C3_broadcast_ack_rejected { sockW with _rooms := [], nspIds := 3 } "x" [Arg.fn 9]
     "/" [] {}).2.2 rfl rfl rfl rfl⟩

/-- Helper: a key is always a member of the list after a set-style insert. -/
theorem mapSet_self_mem (l : List String) (k : String) : k ∈ mapSet l k := by
  unfold mapSet
  split
  · next h => simpa using h
  · exact List.mem_append_right l (List.mem_singleton.mpr rfl)

/-- C4: `onconnect` registers the socket in `nsp.connected` and joins the
room named by its own id; it writes a CONNECT packet unless the namespace is
the default one with zero connect middleware, the exact case in which
`Server.attach` pre-encoded a CONNECT packet for "/" as the transport's
initial packet. -/
theorem C4_onconnect (s : SocketState) :
    (Socket.onconnect s).1 = { s with nspConnected := mapSet s.nspConnected s.id } ∧
    s.id ∈ (Socket.onconnect s).1.nspConnected ∧
    (s.nspName = "/" ∧ s.nspFns = 0 →
      (Socket.onconnect s).2 =
        [Effect.nspConnectedAdd s.id, Effect.adapterAddAll s.id [s.id]] ∧
      Server.attachInitialPacket s.nspFns =
        some { type := PacketType.CONNECT, nsp := some "/" }) ∧
    (¬(s.nspName = "/" ∧ s.nspFns = 0) →
      (Socket.onconnect s).2 =
        [Effect.nspConnectedAdd s.id, Effect.adapterAddAll s.id [s.id],
         Socket.packet s { type := PacketType.CONNECT } {}]) := by
  refine ⟨rfl, ?_, ?_, ?_⟩
  · exact mapSet_self_mem s.nspConnected s.id
  · rintro ⟨h1, h2⟩
    have hskip : (s.nspName == "/" && s.nspFns == 0) = true := by
      simp [h1, h2]
    constructor
    · unfold Socket.onconnect
      rw [hskip]
      simp
    · unfold Server.attachInitialPacket
      simp [h2]
  · intro h
    have hskip : (s.nspName == "/" && s.nspFns == 0) = false := by
      rcases not_and_or.mp h with h1 | h1 <;> simp [h1]
    unfold Socket.onconnect
    rw [hskip]
    simp

/-- Witness for C4 at two concrete sockets: on the default namespace without
middleware no CONNECT packet is written (it rides on the handshake); on a
non-default namespace the CONNECT packet is the third effect. -/
theorem C4_witness :
    ((Socket.onconnect { sockW with _rooms := [] }).2 =
        [Effect.nspConnectedAdd "a", Effect.adapterAddAll "a" ["a"]] ∧
      Server.attachInitialPacket 0 =
        some { type := PacketType.CONNECT, nsp := some "/" }) ∧
    (Socket.onconnect { sockW with nspName := "/chat", id := "/chat#a" }).2 =
      [Effect.nspConnectedAdd "/chat#a", Effect.adapterAddAll "/chat#a" ["/chat#a"],
       Socket.packet { sockW with nspName := "/chat", id := "/chat#a" }
         { type := PacketType.CONNECT } {}] :=
  ⟨(C4_onconnect { sockW with _rooms := [] }).2.2.1 ⟨rfl, rfl⟩,
   (C4_onconnect { sockW with nspName := "/chat", id := "/chat#a" }).2.2.2
     (by simp)⟩

/-- C5: `onclose` is a no-op once `connected` is false; on the first call it
emits `disconnecting`, leaves every room, removes the socket from its
Namespace and its Client, flips the flags, deletes it from `nsp.connected`
and emits `disconnect`, in that order; the (connected, disconnected) pair
moves from (true, false) to (false, true) and a second call changes
nothing. -/
theorem C5_onclose (s : SocketState) (reason r2 : String) :
    (s.connected = false → Socket.onclose s reason = (s, [])) ∧
    (s.connected = true →
      Socket.onclose s reason =
        ({ s with connected := false, disconnected := true,
                  nspConnected := s.nspConnected.erase s.id },
         [Effect.localEmit "disconnecting" [Arg.str reason],
          Effect.adapterDelAll s.id,
          Effect.nspRemove s.id,
          Effect.clientRemove s.id,
          Effect.setConnected false,
          Effect.setDisconnected true,
          Effect.nspConnectedDelete s.id,
          Effect.localEmit "disconnect" [Arg.str reason]]) ∧
      (Socket.onclose s reason).1.connected = false ∧
      (Socket.onclose s reason).1.disconnected = true ∧
      Socket.onclose (Socket.onclose s reason).1 r2 = ((Socket.onclose s reason).1, [])) := by
  constructor
  · intro h
    unfold Socket.onclose
    rw [h]
    simp
  · intro h
    have heq :
        Socket.onclose s reason =
          ({ s with connected := false, disconnected := true,
                    nspConnected := s.nspConnected.erase s.id },
           [Effect.localEmit "disconnecting" [Arg.str reason],
            Effect.adapterDelAll s.id,
            Effect.nspRemove s.id,
            Effect.clientRemove s.id,
            Effect.setConnected false,
            Effect.setDisconnected true,
            Effect.nspConnectedDelete s.id,
            Effect.localEmit "disconnect" [Arg.str reason]]) := by
      unfold Socket.onclose
      rw [h]
      simp
    refine ⟨heq, ?_, ?_, ?_⟩
    · rw [heq]
    · rw [heq]
    · rw [heq]
      unfold Socket.onclose
      simp

/-- Witness for C5 at a concrete connected socket: the full ordered trace,
the flag transition and the idempotence of the second call. -/
theorem C5_witness :
    Socket.onclose sockW "transport close" =
      ({ sockW with connected := false, disconnected := true, nspConnected := [] },
       [Effect.localEmit "disconnecting" [Arg.str "transport close"],
        Effect.adapterDelAll "a",
        Effect.nspRemove "a",
        Effect.clientRemove "a",
        Effect.setConnected false,
        Effect.setDisconnected true,
        Effect.nspConnectedDelete "a",
        Effect.localEmit "disconnect" [Arg.str "transport close"]]) ∧
    (Socket.onclose sockW "transport close").1.connected = false ∧
    (Socket.onclose sockW "transport close").1.disconnected = true ∧
    Socket.onclose (Socket.onclose sockW "transport close").1 "again" =
      ((Socket.onclose sockW "transport close").1, []) :=
  (C5_onclose sockW "transport close" "again").2 rfl

/-- Helper: membership survives a set-style insert. -/
theorem mapSet_mem_of_mem (l : List String) (k k2 : String) (h : k2 ∈ l) :
    k2 ∈ mapSet l k := by
  unfold mapSet
  split
  · exact h
  · exact List.mem_append_left [k] h

/-- Helper: once the default-namespace Socket is registered, every replayed
buffered connect takes the creating branch of `doConnectFlat`. -/
theorem doConnectFlat_creates (st : ClientState) (b : String)
    (h : "/" ∈ st.nsps) :
    Client.doConnectFlat st b = ({ st with nsps := mapSet st.nsps b }, [b]) := by
  unfold Client.doConnectFlat
  have hc : st.nsps.contains "/" = true := by simpa using h
  rw [hc]
  simp

/-- Helper: replaying the whole buffer after the default Socket is registered
creates one Socket per buffered name, in buffer order, and leaves the buffer
field itself untouched (it is cleared afterwards by `doConnect`). -/
theorem replay_fold (buf : List String) (st : ClientState) (acc : List String)
    (h : "/" ∈ st.nsps) :
    (buf.foldl
        (fun (a2 : ClientState × List String) b =>
          ((Client.doConnectFlat a2.1 b).1, a2.2 ++ (Client.doConnectFlat a2.1 b).2))
        (st, acc)).2 = acc ++ buf ∧
    (buf.foldl
        (fun (a2 : ClientState × List String) b =>
          ((Client.doConnectFlat a2.1 b).1, a2.2 ++ (Client.doConnectFlat a2.1 b).2))
        (st, acc)).1.connectBuffer = st.connectBuffer := by
  induction buf generalizing st acc with
  | nil => simp
  | cons b rest ih =>
    simp only [List.foldl_cons]
    rw [doConnectFlat_creates st b h]
    have ih2 := ih { st with nsps := mapSet st.nsps b } (acc ++ [b])
      (mapSet_mem_of_mem st.nsps b "/" h)
    simpa using ih2

/-- C6: a CONNECT for a non-default namespace arriving before the Client has a
default-namespace Socket creates nothing and is appended to `connectBuffer`;
when the default CONNECT is approved, the Sockets created are exactly the
default one followed by the buffered names in arrival order, and the buffer
is cleared. -/
theorem C6_connect_buffer (st : ClientState) (b : String) :
    (b ≠ "/" → "/" ∉ st.nsps →
      Client.doConnect st b =
        ({ st with connectBuffer := st.connectBuffer ++ [b] }, [])) ∧
    ("/" ∉ st.nsps →
      (Client.doConnect st "/").2 = "/" :: st.connectBuffer ∧
      (Client.doConnect st "/").1.connectBuffer = []) := by
  constructor
  · intro hb hmem
    have hne : (b != "/") = true := by simpa using hb
    have hc : st.nsps.contains "/" = false := by simpa using hmem
    unfold Client.doConnect Client.doConnectFlat
    rw [hne, hc]
    simp only [Bool.not_false, Bool.and_true, Bool.and_self, if_true]
    have hbeq : (b == "/") = false := by simpa using hb
    rw [hbeq]
    simp
  · intro hmem
    have hflat :
        Client.doConnectFlat st "/" = ({ st with nsps := mapSet st.nsps "/" }, ["/"]) := by
      unfold Client.doConnectFlat
      simp
    unfold Client.doConnect
    rw [hflat]
    cases hbuf : st.connectBuffer with
    | nil => simp [hbuf]
    | cons c rest =>
      have hmem2 : "/" ∈ mapSet st.nsps "/" := mapSet_self_mem st.nsps "/"
      have hr := replay_fold (c :: rest) { st with nsps := mapSet st.nsps "/" } ["/"] hmem2
      simp only [hbuf] at hr ⊢
      simp only [List.isEmpty_cons, Bool.not_false, Bool.and_true, beq_self_eq_true,
        Bool.true_and, if_true]
      exact ⟨hr.1, trivial⟩

/-- Witness for C6 at a concrete Client: two early CONNECTs for "/chat" and
"/news" are buffered without creating Sockets, and the default approval
replays them in order and clears the buffer. -/
theorem C6_witness :
    Client.doConnect { nsps := [], connectBuffer := [] } "/chat" =
      ({ nsps := [], connectBuffer := ["/chat"] }, []) ∧
    (Client.doConnect { nsps := [], connectBuffer := ["/chat", "/news"] } "/").2 =
      ["/", "/chat", "/news"] ∧
    (Client.doConnect { nsps := [], connectBuffer := ["/chat", "/news"] } "/").1.connectBuffer =
      [] :=
  ⟨(C6_connect_buffer { nsps := [], connectBuffer := [] } "/chat").1
     (by decide) (by simp),
   (C6_connect_buffer { nsps := [], connectBuffer := ["/chat", "/news"] } "/chat").2
     (by simp)⟩

/-- Counterexample to C7: "error" is reserved on a Socket but not on a
Namespace (whose blacklist is only connect/connection/newListener), so
emitting "error" on a Namespace invokes the adapter instead of staying
local. -/
theorem C7_counterexample :
    Namespace.emit "/" [] {} "error" [] =
      Except.ok ([], {},
        [Effect.adapterBroadcast "/"
          { type := PacketType.EVENT, data := PacketData.args [Arg.str "error"] }
          [] [] {}]) := rfl

/-- C7 amended: the six reserved names are routed to the local listener
registry by `Socket.emit` (no packet, no adapter); on a Namespace the
reserved set is only {connect, connection, newListener}, routed locally,
while the remaining names — including "error" — produce an adapter
broadcast. -/
theorem C7_reserved_events_amended (s : SocketState) (ev : String) (rest : List Arg)
    (name : String) (rooms : List String) (flags : BroadcastFlags) :
    (socketEvents.contains ev = true →
      Socket.emit s ev rest = Except.ok (s, [Effect.localEmit ev rest])) ∧
    (nspEvents.contains ev = true →
      Namespace.emit name rooms flags ev rest =
        Except.ok (rooms, flags, [Effect.localEmit ev rest])) ∧
    (socketEvents.contains ev = true → nspEvents.contains ev = false →
      lastIsFn (Arg.str ev :: rest) = false →
      ∃ p, Namespace.emit name rooms flags ev rest =
        Except.ok ([], {}, [Effect.adapterBroadcast name p rooms [] flags])) := by
  refine ⟨?_, ?_, ?_⟩
  · intro h
    unfold Socket.emit
    rw [h]
    simp
  · intro h
    unfold Namespace.emit
    rw [h]
    simp
  · intro _ h2 hfn
    unfold Namespace.emit
    rw [h2]
    simp only [Bool.false_eq_true, if_false]
    rw [hfn]
    simp only [Bool.false_eq_true, if_false]
    exact ⟨_, rfl⟩

/-- Witness for C7 amended: "connect" stays local on both a Socket and a
Namespace; "error" on a Namespace goes through the adapter with the staged
rooms. -/
theorem C7_witness :
    Socket.emit sockW "connect" [Arg.num 1] =
      Except.ok (sockW, [Effect.localEmit "connect" [Arg.num 1]]) ∧
    Namespace.emit "/" ["r1"] {} "connect" [Arg.num 1] =
      Except.ok (["r1"], {}, [Effect.localEmit "connect" [Arg.num 1]]) ∧
    ∃ p, Namespace.emit "/" ["r1"] {} "error" [] =
      Except.ok ([], {}, [Effect.adapterBroadcast "/" p ["r1"] [] {}]) :=
  ⟨(C7_reserved_events_amended sockW "connect" [Arg.num 1] "/" ["r1"] {}).1 rfl,
   (C7_reserved_events_amended sockW "connect" [Arg.num 1] "/" ["r1"] {}).2.1 rfl,
   (C7_reserved_events_amended sockW "error" [] "/" ["r1"] {}).2.2 rfl rfl rfl⟩

/-- Parent namespace with one staged room and two children, the failing input
for C8. -/
def parentW : ParentNs :=
  { rooms := ["r1"], flags := {}, children := ["/c1", "/c2"] }

/-- Evaluation of the code at C8's failing input: `ParentNamespace.emit`
assigns the parent's rooms Set to each child by reference, and the first
child's `Namespace.emit` clears that shared object, so the first child
broadcasts to the staged room "r1" while the second child broadcasts with an
empty room set (that is, to every socket of its namespace) — not to the same
staged rooms as the claim states. The flags are delivered intact to both
children, and the parent's staged rooms and flags end up cleared. -/
theorem C8_parent_emit_shared_rooms :
    ParentNamespace.emit parentW "x" [] =
      Except.ok ({ rooms := [], flags := {}, children := ["/c1", "/c2"] },
        [Effect.adapterBroadcast "/c1"
           { type := PacketType.EVENT, data := PacketData.args [Arg.str "x"] }
           ["r1"] [] {},
         Effect.adapterBroadcast "/c2"
           { type := PacketType.EVENT, data := PacketData.args [Arg.str "x"] }
           [] [] {}]) := rfl

/-- Counterexample to C9: after a plain `disconnect()` (which leaves the
underlying transport open) a further `emit` still hands its packet to the
Client, and with the connection open the packet reaches the transport. -/
theorem C9_counterexample :
    transportWrites true true
      (emitEffects (Socket.disconnect { sockW with _rooms := [] } false).1 "x" []) ≠ [] := by
  decide

/-- Helper: nothing reaches the transport through a closed connection. -/
theorem transportWrites_closed (effs : List Effect) (writable : Bool) :
    transportWrites false writable effs = [] := by
  induction effs with
  | nil => rfl
  | cons e rest ih => cases e <;> simp [transportWrites, Client.packetWrites, ih]

/-- Helper: with no staged room, the broadcast flag unset and no trailing
callback, an emit of a non-reserved event takes the direct path through the
owning Client. -/
theorem emit_direct (t : SocketState) (ev : String) (rest : List Arg)
    (hev : socketEvents.contains ev = false)
    (hfn : lastIsFn (Arg.str ev :: rest) = false)
    (hrooms : t._rooms = []) (hb2 : t.flags.broadcast = false) :
    Socket.emit t ev rest =
      Except.ok ({ t with _rooms := [], flags := {} },
        [Socket.packet t
          { type := if (match t.flags.binary with
                        | some b => b
                        | none => hasBin (Arg.str ev :: rest))
                    then PacketType.BINARY_EVENT else PacketType.EVENT,
            data := PacketData.args (Arg.str ev :: rest) }
          t.flags]) := by
  unfold Socket.emit
  rw [hev]
  simp only [Bool.false_eq_true, if_false]
  rw [hfn]
  simp only [Bool.false_eq_true, if_false]
  have hb : (!t._rooms.isEmpty || t.flags.broadcast) = false := by
    simp [hrooms, hb2]
  rw [hb]
  simp only [Bool.false_eq_true, if_false]

/-- C9 amended: an emit is a transport no-op only when the underlying
connection is closed (as after `disconnect(close = true)` or a transport
close); after a plain `disconnect()` a subsequent emit of a non-reserved
event still produces exactly one packet handed to the Client, and that packet
reaches the still-open transport. -/
theorem C9_emit_after_disconnect_amended (s : SocketState) (ev : String) (rest : List Arg)
    (writable : Bool) (effs : List Effect)
    (hev : socketEvents.contains ev = false)
    (hconn : s.connected = true) (hrooms : s._rooms = []) (hflags : s.flags = {})
    (hfn : lastIsFn (Arg.str ev :: rest) = false) :
    transportWrites false writable effs = [] ∧
    ∃ p fl, emitEffects (Socket.disconnect s false).1 ev rest = [Effect.clientPacket p fl] ∧
      transportWrites true true (emitEffects (Socket.disconnect s false).1 ev rest) = [p] := by
  refine ⟨transportWrites_closed effs writable, ?_⟩
  have hs1 : (Socket.disconnect s false).1 =
      { s with connected := false, disconnected := true,
               nspConnected := s.nspConnected.erase s.id } := by
    unfold Socket.disconnect Socket.onclose
    rw [hconn]
    simp
  have hr2 : (Socket.disconnect s false).1._rooms = [] := by
    rw [hs1]
    simpa using hrooms
  have hb2 : (Socket.disconnect s false).1.flags.broadcast = false := by
    rw [hs1]
    simp [hflags]
  have hd := emit_direct (Socket.disconnect s false).1 ev rest hev hfn hr2 hb2
  simp only [emitEffects, hd]
  exact ⟨_, _, rfl, by simp [Socket.packet, transportWrites, Client.packetWrites]⟩

/-- Witness for C9 amended at a concrete socket: the packet written after a
plain disconnect, and the transport silence through a closed connection. -/
theorem C9_witness :
    transportWrites false true [] = [] ∧
    ∃ p fl,
      emitEffects (Socket.disconnect { sockW with _rooms := [] } false).1 "x" [] =
        [Effect.clientPacket p fl] ∧
      transportWrites true true
        (emitEffects (Socket.disconnect { sockW with _rooms := [] } false).1 "x" []) =
        [p] :=
  C9_emit_after_disconnect_amended { sockW with _rooms := [] } "x" [] true []
    rfl rfl rfl rfl rfl

/-- Counterexample to C10: an emit that throws (trailing callback while a
room is staged) does not clear `_rooms` — the staged room survives the
call. -/
theorem C10_counterexample :
    (Socket.emitFinalState sockW "x" [Arg.fn 0])._rooms ≠ [] := by decide

/-- C10 amended: an emit of a non-reserved event that returns normally leaves
`_rooms` empty and `flags` cleared and preserves the socket's identity,
handshake, lifecycle flags and previously stored acks; an emit that throws
leaves the whole state exactly as it was (in particular `_rooms` and `flags`
are not reset). -/
theorem C10_emit_resets_amended (s : SocketState) (ev : String) (rest : List Arg)
    (hev : socketEvents.contains ev = false) :
    (∀ s2 effs, Socket.emit s ev rest = Except.ok (s2, effs) →
      s2._rooms = [] ∧ s2.flags = {} ∧ s2.id = s.id ∧ s2.nspName = s.nspName ∧
      s2.handshake = s.handshake ∧ s2.connected = s.connected ∧
      s2.disconnected = s.disconnected ∧ ∀ e ∈ s.acks, e ∈ s2.acks) ∧
    (∀ msg, Socket.emit s ev rest = Except.error msg →
      Socket.emitFinalState s ev rest = s) := by
  constructor
  · intro s2 effs hok
    unfold Socket.emit at hok
    rw [hev] at hok
    simp only [Bool.false_eq_true, if_false] at hok
    cases hfn : lastIsFn (Arg.str ev :: rest) with
    | true =>
      rw [hfn] at hok
      simp only [if_true] at hok
      cases hb : (!s._rooms.isEmpty || s.flags.broadcast) with
      | true =>
        rw [hb] at hok
        simp only [if_true] at hok
        cases hok
      | false =>
        rw [hb] at hok
        simp only [Bool.false_eq_true, if_false] at hok
        cases hok
        refine ⟨rfl, rfl, rfl, rfl, rfl, rfl, rfl, ?_⟩
        intro e he
        exact List.mem_cons_of_mem _ he
    | false =>
      rw [hfn] at hok
      simp only [Bool.false_eq_true, if_false] at hok
      cases hb : (!s._rooms.isEmpty || s.flags.broadcast) with
      | true =>
        rw [hb] at hok
        simp only [if_true] at hok
        cases hok
        exact ⟨rfl, rfl, rfl, rfl, rfl, rfl, rfl, fun e he => he⟩
      | false =>
        rw [hb] at hok
        simp only [Bool.false_eq_true, if_false] at hok
        cases hok
        exact ⟨rfl, rfl, rfl, rfl, rfl, rfl, rfl, fun e he => he⟩
  · intro msg herr
    unfold Socket.emitFinalState
    rw [herr]

/-- Witness for C10 amended at a concrete socket: the normal path clears the
staged room and keeps the stored ack, and the throwing path leaves the state
untouched. -/
theorem C10_witness :
    (({ sockW with acks := [(0, 5)] } : SocketState)._rooms = ["r1"] →
      ∀ s2 effs,
        Socket.emit { sockW with acks := [(0, 5)] } "x" [] = Except.ok (s2, effs) →
        s2._rooms = [] ∧ s2.flags = {} ∧ s2.id = "a" ∧ s2.nspName = "/" ∧
        s2.handshake = "h" ∧ s2.connected = true ∧ s2.disconnected = false ∧
        ∀ e ∈ [((0 : Nat), (5 : Nat))], e ∈ s2.acks) ∧
    Socket.emitFinalState sockW "x" [Arg.fn 0] = sockW :=
  ⟨fun _ => (C10_emit_resets_amended { sockW with acks := [(0, 5)] } "x" [] rfl).1,
   (C10_emit_resets_amended sockW "x" [Arg.fn 0] rfl).2
     "Callbacks are not supported when broadcasting" rfl⟩
